import Mathlib

/-!
# Verification of the maps4fsapi task-queue / session-lifecycle core

Shallow embedding of the task queue, session tracking, result cache and
retrieval logic of `maps4fsapi` (files `maps4fsapi/tasks.py`,
`maps4fsapi/storage.py`, `maps4fsapi/components/task.py`,
`maps4fsapi/components/map.py`).

Modelling conventions:
* Python wall-clock instants are `Nat` (seconds); `rounded_time_now()` is a
  `now` parameter threaded through the operations.
* Python floats are idealised as `ℚ`.
* The filesystem is a list of existing directory names (`FS`); `shutil.rmtree`
  removes a name from it.
* Python `None`-able strings are `Option String`; Python truthiness of a
  string (`if entry.directory:`) is `none`/`""` falsy.
* Exceptions are explicit: fallible operations return a `PyOutcome`.
* The `TTLCache` base class of `CleanableTTLCache` comes from the `cachetools`
  dependency; its behaviour (expiry on read, `expire()` sweeping expired links
  through the base-class `Cache.__delitem__` — i.e. *not* through the subclass
  override — and `popitem()` evicting the oldest live link through
  `self.pop`, which *does* dispatch to the subclass `__delitem__`) is embedded
  below following the `cachetools` implementation, since `storage.py` builds
  directly on it.
-/

namespace Maps4fs

/-- Truthiness of an optional Python string: `None` and `""` are falsy. -/
def optStrTruthy : Option String → Bool
  | none => false
  | some s => s ≠ ""

/-- Outcome of running a Python callable: a returned value or a raised
exception carrying its message. -/
inductive PyOutcome (α : Type) where
  | ok (a : α)
  | raised (msg : String)
deriving Repr, DecidableEq

/-- Embedding of `STORAGE_TTL` from `config.py` (seconds). -/
def STORAGE_TTL : Nat := 3600

/-- Embedding of `STORAGE_MAX_SIZE` from `config.py`. -/
def STORAGE_MAX_SIZE : Nat := 1000

/-- Embedding of `StorageEntry` from `storage.py` (lines 12-25): a `NamedTuple` with exactly
the four fields `success`, `description`, `directory`, `file_path`. -/
structure StorageEntry where
  success : Bool
  description : String
  directory : Option String := none
  file_path : Option String := none
deriving Repr, DecidableEq

/-- The field names accepted by the `StorageEntry` named-tuple constructor
(`storage.py` lines 12-25). -/
def storageEntryFields : List String :=
  ["success", "description", "directory", "file_path"]

/-- The keyword-argument names used to construct the `StorageEntry` in the
`finally` block of `task_generation` (`tasks.py` lines 625-631): note the
fifth keyword `previews`. -/
def taskGenerationEntryKwargs : List String :=
  ["success", "description", "directory", "file_path", "previews"]

/-- Python named-tuple construction accepts a keyword-argument list iff every
keyword is a declared field; otherwise `__new__` raises `TypeError`. -/
def namedTupleAccepts (fields kwargs : List String) : Bool :=
  kwargs.all (fun k => fields.contains k)

/-- The filesystem, as the list of directories that currently exist. -/
abbrev FS := List String

/-- Embedding of `shutil.rmtree`: the directory (and all its occurrences) stops existing. -/
def rmtree (fs : FS) (d : String) : FS := fs.filter (fun x => x ≠ d)

/-- One stored item of the `cachetools.TTLCache` underlying
`CleanableTTLCache`: key, value, and the absolute expiry instant of its TTL
link. The enclosing list is kept in link order (oldest-inserted first). -/
structure CacheItem where
  key : String
  entry : StorageEntry
  expires : Nat
deriving Repr, DecidableEq

/-- State of a `CleanableTTLCache` (`storage.py` line 28): the items in link
order plus the construction parameters `maxsize` and `ttl`. -/
structure CleanableTTLCache where
  maxsize : Nat
  ttl : Nat
  items : List CacheItem
deriving Repr, DecidableEq

namespace CleanableTTLCache

/-- Dictionary lookup in the cache's backing data (ignoring expiry). -/
def lookupItem (c : CleanableTTLCache) (k : String) : Option CacheItem :=
  c.items.find? (fun it => it.key == k)

/-- Embedding of `TTLCache.__getitem__` / `.get`: an item is returned only while its link
has not expired (`cachetools`: live iff `timer() < link.expires`); an expired
or absent key yields `None` from `.get`. -/
def ttlGet (c : CleanableTTLCache) (k : String) (now : Nat) : Option StorageEntry :=
  match c.lookupItem k with
  | none => none
  | some it => if now < it.expires then some it.entry else none

/-- Embedding of `TTLCache.__contains__`: present and not expired. -/
def ttlContains (c : CleanableTTLCache) (k : String) (now : Nat) : Bool :=
  (c.ttlGet k now).isSome

/-- The loop of `TTLCache.expire`: walk the links from the oldest and drop
every link whose expiry has passed, stopping at the first live link. -/
def expireLoop : List CacheItem → Nat → List CacheItem
  | [], _ => []
  | it :: rest, now => if now < it.expires then it :: rest else expireLoop rest now

/-- Embedding of `TTLCache.expire`: sweep expired links.  In `cachetools` this calls the
*base-class* `Cache.__delitem__` directly (`cache_delitem = Cache.__delitem__`),
so the `CleanableTTLCache.__delitem__` override — and with it the directory
cleanup — is bypassed: the filesystem is untouched. -/
def expire (c : CleanableTTLCache) (now : Nat) : CleanableTTLCache :=
  { c with items := expireLoop c.items now }

/-- Embedding of `CleanableTTLCache.__delitem__` (`storage.py` lines 31-38) on a key known
to be present: `self.get(key)` (which returns `None` for an expired entry),
directory cleanup when the looked-up entry has a truthy `directory` that
exists on disk, then `super().__delitem__` removing the backing item. -/
def cleanableDelitem (c : CleanableTTLCache) (fs : FS) (k : String) (now : Nat) :
    CleanableTTLCache × FS :=
  let fs' :=
    match c.ttlGet k now with
    | some e =>
      match e.directory with
      | some d => if d ≠ "" ∧ fs.contains d then rmtree fs d else fs
      | none => fs
    | none => fs
  ({ c with items := c.items.filter (fun it => it.key ≠ k) }, fs')

/-- Embedding of `TTLCache.popitem` after the initial `expire` has already run: take the
oldest link's key and remove it via `self.pop(key)`, which reads the (live)
value and then executes `del self[key]` — dispatching to the
`CleanableTTLCache.__delitem__` override, so the directory cleanup runs. -/
def popitemStep (c : CleanableTTLCache) (fs : FS) (now : Nat) :
    CleanableTTLCache × FS :=
  match c.items.head? with
  | none => (c, fs)
  | some it => cleanableDelitem c fs it.key now

/-- The eviction loop of `Cache.__setitem__` for a new key (each value has
size 1): while inserting would exceed `maxsize` and an item remains, evict
via `popitem`.  The loop is written with explicit fuel; every iteration
removes at least the oldest item, so fuel `items.length` (what `ttlSetitem`
supplies) makes this exactly the `while` loop of `Cache.__setitem__`. -/
def evictLoop : Nat → CleanableTTLCache → FS → Nat → CleanableTTLCache × FS
  | 0, c, fs, _ => (c, fs)
  | fuel + 1, c, fs, now =>
    if c.maxsize < c.items.length + 1 ∧ c.items ≠ [] then
      let next := popitemStep c fs now
      evictLoop fuel next.1 next.2 now
    else
      (c, fs)

/-- Store step of `TTLCache.__setitem__`: the value is written and the key's
link is (re)inserted at the tail with a fresh expiry `now + ttl`. -/
def storeItem (c : CleanableTTLCache) (k : String) (e : StorageEntry) (now : Nat) :
    CleanableTTLCache :=
  { c with items := c.items.filter (fun it => it.key ≠ k) ++ [⟨k, e, now + c.ttl⟩] }

/-- Embedding of `TTLCache.__setitem__` (the path taken by `Storage.add_entry`): first
`expire(time)`, then `Cache.__setitem__` — which runs the eviction loop only
when the key is not already present — then the link bookkeeping. -/
def ttlSetitem (c : CleanableTTLCache) (fs : FS) (k : String) (e : StorageEntry)
    (now : Nat) : CleanableTTLCache × FS :=
  let c1 := c.expire now
  if (c1.lookupItem k).isSome then
    (c1.storeItem k e now, fs)
  else
    let (c2, fs2) := evictLoop c1.items.length c1 fs now
    (c2.storeItem k e now, fs2)

/-- Embedding of `MutableMapping.pop(key, None)` on the cache (the body of
`Storage.pop_entry`): reading an absent *or expired* key raises `KeyError`
inside `pop`, which then returns the default without deleting anything; a
live key is returned and deleted through `CleanableTTLCache.__delitem__`. -/
def ttlPop (c : CleanableTTLCache) (fs : FS) (k : String) (now : Nat) :
    Option StorageEntry × CleanableTTLCache × FS :=
  match c.ttlGet k now with
  | none => (none, c, fs)
  | some e =>
    let (c', fs') := c.cleanableDelitem fs k now
    (some e, c', fs')

end CleanableTTLCache

open CleanableTTLCache

/-- Embedding of `Storage.add_entry` (`storage.py` lines 47-55): `self.cache[key] = entry`. -/
def addEntry (c : CleanableTTLCache) (fs : FS) (k : String) (e : StorageEntry)
    (now : Nat) : CleanableTTLCache × FS :=
  ttlSetitem c fs k e now

/-- Embedding of `Storage.get_entry` (`storage.py` lines 74-84): `self.cache.get(key)`. -/
def getEntry (c : CleanableTTLCache) (k : String) (now : Nat) : Option StorageEntry :=
  ttlGet c k now

/-- Embedding of `Storage.pop_entry` (`storage.py` lines 86-95): `self.cache.pop(key, None)`. -/
def popEntry (c : CleanableTTLCache) (fs : FS) (k : String) (now : Nat) :
    Option StorageEntry × CleanableTTLCache × FS :=
  ttlPop c fs k now

/-- Embedding of `Storage.remove_entry` (`storage.py` lines 97-105): pop only when
`key in self.cache`. -/
def removeEntry (c : CleanableTTLCache) (fs : FS) (k : String) (now : Nat) :
    CleanableTTLCache × FS :=
  if ttlContains c k now then
    let (_, c', fs') := popEntry c fs k now
    (c', fs')
  else
    (c, fs)

/-- The empty cache with the `config.py` parameters, as built by
`Storage.__init__`. -/
def emptyStorage : CleanableTTLCache :=
  { maxsize := STORAGE_MAX_SIZE, ttl := STORAGE_TTL, items := [] }

/-- Python `int()` truncation of a rational towards zero. -/
def pyInt (q : ℚ) : Int := if q < 0 then ⌈q⌉ else ⌊q⌋

/-- The fields of `MainSettingsPayload` (`components/models.py`) consumed by
the queue and the worker. -/
structure MainSettingsPayload where
  game_code : String
  dtm_code : String
  lat : ℚ
  lon : ℚ
  size : Nat
  rotation : Int := 0
  output_size : Option Nat := none
  is_public : Bool := false
deriving Repr, DecidableEq

/-- Embedding of `HistoryEntry` from `tasks.py` (lines 35-44). -/
structure HistoryEntry where
  session_name : String
  coordinates : Int × Int
  game_code : String
  size : Nat
  status : String
  timestamp : Nat
deriving Repr, DecidableEq

/-- Behaviour of the `try:` body of `task_generation` (`tasks.py` lines
375-617) for one job: the body either reaches line 617 — having set
`task_directory`, `output_path` and `previews` — or raises somewhere, with
whatever value `task_directory` had at that point (`None` before line 436). -/
inductive BodyOutcome where
  | completed (task_directory output_path : String) (previews : List String)
  | raised (msg : String) (task_directory : Option String)
deriving Repr, DecidableEq

/-- A queued job as stored by `TasksQueue.add_task` (`tasks.py` line 107):
the tuple `(session_name, func, payload, args, kwargs)`.  The enqueued
callable is `task_generation`; the behaviour of its externally-dependent body
is abstracted by `outcome`. -/
structure Job where
  session_name : String
  payload : MainSettingsPayload
  outcome : BodyOutcome
deriving Repr, DecidableEq

/-- Embedding of `task_generation` (`tasks.py` lines 353-634).  The `try` body's generator
work is the `outcome` parameter; the `except Exception` arm (lines 618-623)
turns a raised body into `success = False` with the
`"Task failed with error: ..."` description and empty previews; the `finally`
block (lines 624-631) then constructs
`StorageEntry(success=…, description=…, directory=…, file_path=…, previews=…)`.
Since the `StorageEntry` named tuple of `storage.py` declares no `previews`
field, that construction raises `TypeError` whenever the keyword list is not
accepted, in which case line 633 (`Storage().add_entry`) and line 634
(`return success`) are never reached and the cache and filesystem are
unchanged. -/
def taskGeneration (j : Job) (c : CleanableTTLCache) (fs : FS) (now : Nat) :
    PyOutcome Bool × CleanableTTLCache × FS :=
  let r : Bool × String × Option String × Option String × List String :=
    match j.outcome with
    | .completed dir out prev =>
      (true, "Task completed successfully.", some dir, some out, prev)
    | .raised msg dir =>
      (false, "Task failed with error: " ++ msg, dir, none, [])
  match r with
  | (success, description, directory, file_path, _previews) =>
    if namedTupleAccepts storageEntryFields taskGenerationEntryKwargs then
      let (c', fs') :=
        addEntry c fs j.session_name ⟨success, description, directory, file_path⟩ now
      (.ok success, c', fs')
    else
      (.raised "TypeError: StorageEntry got an unexpected keyword argument previews",
        c, fs)

/-- Python `set.add` on the active-session set, modelled as a duplicate-free
list. -/
def setAdd (l : List String) (s : String) : List String :=
  if l.contains s then l else l ++ [s]

/-- Python `set.discard`. -/
def setDiscard (l : List String) (s : String) : List String :=
  l.filter (fun x => x ≠ s)

/-- Embedding of `collections.deque(maxlen=n).append`. -/
def dequeAppend (maxlen : Nat) (l : List HistoryEntry) (e : HistoryEntry) :
    List HistoryEntry :=
  let l' := l ++ [e]
  if maxlen < l'.length then l'.drop (l'.length - maxlen) else l'

/-- The mutable state of the `TasksQueue` singleton (`tasks.py` lines 71-82),
minus the worker thread handle. -/
structure TQState where
  tasks : List Job
  history : List HistoryEntry
  active_sessions : List String
  active_sessions_info : List HistoryEntry
  processing_now : Option String
  processing_now_info : Option HistoryEntry
  completed_tasks : Nat
  failed_tasks : Nat
  processing_time : ℚ
deriving Repr, DecidableEq

/-- The freshly-constructed `TasksQueue` state. -/
def initTQ : TQState :=
  { tasks := [], history := [], active_sessions := [], active_sessions_info := []
    processing_now := none, processing_now_info := none
    completed_tasks := 0, failed_tasks := 0, processing_time := 0 }

/-- Embedding of `TasksQueue.is_in_queue` (`tasks.py` lines 205-214):
`session_name in self.active_sessions`. -/
def isInQueue (st : TQState) (s : String) : Bool :=
  st.active_sessions.contains s

/-- Embedding of `TasksQueue.is_processing` (`tasks.py` lines 216-225):
`session_name == self.processing_now`. -/
def isProcessing (st : TQState) (s : String) : Bool :=
  st.processing_now == some s

/-- Embedding of `TasksQueue.get_active_tasks_count` (`tasks.py` lines 246-252). -/
def getActiveTasksCount (st : TQState) : Nat :=
  st.active_sessions.length

/-- The `HistoryEntry` literal built at `tasks.py` lines 97-104 / 258-265 /
307-314: coordinates truncated to `int`, game code upper-cased. -/
def mkHistoryEntry (s : String) (p : MainSettingsPayload) (status : String)
    (now : Nat) : HistoryEntry :=
  { session_name := s, coordinates := (pyInt p.lat, pyInt p.lon)
    game_code := p.game_code.toUpper, size := p.size, status := status
    timestamp := now }

/-- Embedding of `TasksQueue.add_task` (`tasks.py` lines 84-114): add the session to the
active set, append an `"Added to queue"` entry to `active_sessions_info`, and
put the job tuple on the queue — all before returning to the caller. -/
def addTask (st : TQState) (j : Job) (now : Nat) : TQState :=
  { st with
    active_sessions := setAdd st.active_sessions j.session_name
    active_sessions_info :=
      st.active_sessions_info ++ [mkHistoryEntry j.session_name j.payload "Added to queue" now]
    tasks := st.tasks ++ [j] }

/-- Embedding of `TasksQueue.remove_active_session` (`tasks.py` lines 236-244): drop the
first `active_sessions_info` entry whose `session_name` matches. -/
def removeFirstInfo : List HistoryEntry → String → List HistoryEntry
  | [], _ => []
  | e :: rest, s => if e.session_name == s then rest else e :: removeFirstInfo rest s

/-- Worker statement, line 256: `self.tasks.get()` removed the head job. -/
def wGet (st : TQState) (rest : List Job) : TQState := { st with tasks := rest }

/-- Worker statement, line 257: `self.processing_now = session_name`. -/
def wSetProcessing (st : TQState) (s : String) : TQState :=
  { st with processing_now := some s }

/-- Worker statement, lines 258-265: `self.processing_now_info = HistoryEntry(...)`. -/
def wSetProcessingInfo (st : TQState) (e : HistoryEntry) : TQState :=
  { st with processing_now_info := some e }

/-- Worker statement, line 266: `self.remove_active_session(session_name)`. -/
def wRemoveActiveInfo (st : TQState) (s : String) : TQState :=
  { st with active_sessions_info := removeFirstInfo st.active_sessions_info s }

/-- Counter updates of the worker's success/failure/except arms (`tasks.py`
lines 279-280, 287-288, 290). -/
def wBumpCounters (st : TQState) (fr : PyOutcome Bool) : TQState :=
  match fr with
  | .ok true => { st with completed_tasks := st.completed_tasks + 1 }
  | .ok false => { st with failed_tasks := st.failed_tasks + 1 }
  | .raised _ => { st with failed_tasks := st.failed_tasks + 1 }

/-- Worker statement, line 302: `self.active_sessions.discard(session_name)`. -/
def wDiscard (st : TQState) (s : String) : TQState :=
  { st with active_sessions := setDiscard st.active_sessions s }

/-- Worker statement, line 304: `self.processing_now = None`. -/
def wClearProcessing (st : TQState) : TQState := { st with processing_now := none }

/-- Worker statement, line 305: `self.processing_now_info = None`. -/
def wClearProcessingInfo (st : TQState) : TQState :=
  { st with processing_now_info := none }

/-- Worker statement, line 317: `self.history.append(history_entry)` on the
maxlen-20 deque. -/
def wAppendHistory (st : TQState) (e : HistoryEntry) : TQState :=
  { st with history := dequeAppend 20 st.history e }

/-- Worker statement, line 320:
`self.processing_time += self.seconds_to_minutes(elapsed_time)`. -/
def wAddTime (st : TQState) (em : ℚ) : TQState :=
  { st with processing_time := st.processing_time + em }

/-- History status recorded by the worker (`tasks.py` lines 267, 279, 287):
`"Completed"` only when `func` returned truthy. -/
def historyStatusOf : PyOutcome Bool → String
  | .ok true => "Completed"
  | .ok false => "Failed"
  | .raised _ => "Failed"

/-- Whether the worker thread survives the iteration: the `except Exception`
arm (lines 289-299) ends in a bare `raise`, so a `func` that raised kills the
`while True` loop after the `finally` block has run. -/
def workerAlive : PyOutcome Bool → Bool
  | .ok _ => true
  | .raised _ => false

/-- One iteration of `TasksQueue._worker` (`tasks.py` lines 254-325) on a
non-empty queue, at statement granularity.  Returns the list of successive
observable `TQState`s (one per state-mutating statement, the initial state
first), the cache and filesystem after running `func = task_generation`, and
whether the worker survives to the next loop iteration. -/
def workerIteration (st : TQState) (c : CleanableTTLCache) (fs : FS) (now : Nat)
    (elapsedMin : ℚ) :
    Option (List TQState × CleanableTTLCache × FS × Bool) :=
  match st.tasks with
  | [] => none
  | j :: rest =>
    let s := j.session_name
    let t1 := wGet st rest
    let t2 := wSetProcessing t1 s
    let t3 := wSetProcessingInfo t2 (mkHistoryEntry s j.payload "Started processing" now)
    let t4 := wRemoveActiveInfo t3 s
    let (funcRes, c', fs') := taskGeneration j c fs now
    let t5 := wBumpCounters t4 funcRes
    let t6 := wDiscard t5 s
    let t7 := wClearProcessing t6
    let t8 := wClearProcessingInfo t7
    let t9 := wAppendHistory t8 (mkHistoryEntry s j.payload (historyStatusOf funcRes) now)
    let t10 := wAddTime t9 elapsedMin
    some ([st, t1, t2, t3, t4, t5, t6, t7, t8, t9, t10], c', fs', workerAlive funcRes)

/-- The observable `TQState`s of one worker iteration (empty when the queue
is empty and the worker blocks). -/
def workerTrace (st : TQState) (c : CleanableTTLCache) (fs : FS) (now : Nat)
    (elapsedMin : ℚ) : List TQState :=
  match workerIteration st c fs now elapsedMin with
  | none => [st]
  | some (ts, _, _, _) => ts

/-- Run the worker loop for up to `fuel` iterations: it keeps dequeuing while
it is alive and work is available, and stops for good once an iteration ends
with the thread dead (the re-raised exception escaping the `while True`).
Returns the final queue state, cache, filesystem, and whether the worker
thread is still alive. -/
def workerRun : Nat → TQState → CleanableTTLCache → FS → Nat → ℚ →
    TQState × CleanableTTLCache × FS × Bool
  | 0, st, c, fs, _, _ => (st, c, fs, true)
  | fuel + 1, st, c, fs, now, em =>
    match workerIteration st c fs now em with
    | none => (st, c, fs, true)
    | some (ts, c', fs', alive) =>
      let stEnd := ts.getLastD st
      if alive then workerRun fuel stEnd c' fs' now em else (stEnd, c', fs', false)

/-- Modelled from the spec: `mfs.Map.suggest_directory_name`, the session
identity deriver called by `get_session_name` (`tasks.py` line 338), lives in
the external `maps4fs` generator library and is not under `src/`.  Per spec
§4.1 it is a pure, deterministic map from finite coordinates and a game code
to an identity string, using a stable higher-precision projection of the
coordinates (here: both coordinates scaled by `10^5` and truncated). -/
def suggestDirectoryName (coordinates : ℚ × ℚ) (gameCode : String) : String :=
  gameCode ++ "_" ++ toString (pyInt (coordinates.1 * 100000)) ++ "_"
    ++ toString (pyInt (coordinates.2 * 100000))

/-- Embedding of `get_session_name` (`tasks.py` lines 328-338). -/
def getSessionName (coordinates : ℚ × ℚ) (gameCode : String) : String :=
  suggestDirectoryName coordinates gameCode

/-- Embedding of `get_session_name_from_payload` (`tasks.py` lines 341-350). -/
def getSessionNameFromPayload (p : MainSettingsPayload) : String :=
  getSessionName (p.lat, p.lon) p.game_code

/-- Embedding of `PUBLIC_QUEUE_LIMIT` is imported by `components/map.py` from `config.py`;
treated as a parameter of the admission check below. -/
structure AdmissionConfig where
  isPublic : Bool
  publicQueueLimit : Nat
deriving Repr, DecidableEq

/-- Result of the `/map/generate` endpoint: either the HTTP 429 high-demand
rejection or the success body carrying the task id. -/
inductive MapGenResult where
  | highDemand429
  | accepted (task_id : String)
deriving Repr, DecidableEq

/-- Embedding of `map_generation` (`components/map.py` lines 19-58): when public and the
active-task count has reached `PUBLIC_QUEUE_LIMIT`, reject with HTTP 429;
otherwise derive the task id from the payload, enqueue `task_generation`
via `TasksQueue().add_task`, and return success with the task id.  There is
no duplicate-identity check of any kind. -/
def mapGeneration (cfg : AdmissionConfig) (st : TQState) (p : MainSettingsPayload)
    (outcome : BodyOutcome) (now : Nat) : MapGenResult × TQState :=
  if cfg.isPublic ∧ cfg.publicQueueLimit ≤ getActiveTasksCount st then
    (.highDemand429, st)
  else
    let task_id := getSessionNameFromPayload p
    (.accepted task_id, addTask st ⟨task_id, p, outcome⟩ now)

/-- The endpoint alias under which `get_task` was invoked
(`components/task.py` lines 48-50 and 112-119). -/
inductive TaskEndpoint where
  | status
  | get
  | previews
deriving Repr, DecidableEq

/-- The distinct exits of `get_task` (`components/task.py` lines 51-154). -/
inductive TaskResponse where
  /-- HTTP 202: cache miss and the id is currently being processed. -/
  | processing202 (task_id : String)
  /-- HTTP 204: cache miss, not processing, but still in the queue. -/
  | stillInQueue204 (task_id : String)
  /-- HTTP 404: cache miss and the id is neither processing nor queued. -/
  | notFound404 (task_id : String)
  /-- HTTP 400 with the entry's description: terminal failed entry. -/
  | failed400 (description : String)
  /-- HTTP 404: successful entry without a file path. -/
  | noFilePath404 (task_id : String)
  /-- HTTP 404: the entry's file path does not exist on disk. -/
  | fileMissing404 (task_id : String)
  /-- The `/status` JSON success body. -/
  | statusOk (task_id : String)
  /-- The `/previews` branch reads `entry.previews`, a field the
  `StorageEntry` of `storage.py` does not declare: `AttributeError`. -/
  | previewsAttributeError
  /-- The `/get` branch: the artifact `FileResponse` (and a background
  `Storage().remove_entry(task_id)`). -/
  | fileResponse (path : String)
deriving Repr, DecidableEq

/-- Embedding of `get_task` (`components/task.py` lines 51-154).  `files` is the set of
existing regular files for the `os.path.isfile` check.  Resolution order as
in the source: `Storage().get_entry` first; on a miss, `is_processing`
before `is_in_queue` (the source comment: "Order matters! Currently
processing task is also in the queue."), else 404. -/
def getTask (c : CleanableTTLCache) (st : TQState) (files : List String)
    (task_id : String) (ep : TaskEndpoint) (now : Nat) : TaskResponse :=
  match getEntry c task_id now with
  | none =>
    if isProcessing st task_id then .processing202 task_id
    else if isInQueue st task_id then .stillInQueue204 task_id
    else .notFound404 task_id
  | some entry =>
    if entry.success = false then .failed400 entry.description
    else if optStrTruthy entry.file_path = false then .noFilePath404 task_id
    else if files.contains (entry.file_path.getD "") = false then .fileMissing404 task_id
    else
      match ep with
      | .status => .statusOk task_id
      | .previews => .previewsAttributeError
      | .get => .fileResponse (entry.file_path.getD "")

/-- Python true division on rationals: raises `ZeroDivisionError` on a zero
divisor. -/
def pyDiv (a b : ℚ) : PyOutcome ℚ :=
  if b = 0 then .raised "ZeroDivisionError: division by zero" else .ok (a / b)

/-- Python `round(x, 1)`: round half to even at one decimal place. -/
def pyRound1 (q : ℚ) : ℚ :=
  let x := q * 10
  let f := ⌊x⌋
  let n : Int :=
    if x - f < 1 / 2 then f
    else if 1 / 2 < x - f then f + 1
    else if 2 ∣ f then f else f + 1
  (n : ℚ) / 10

/-- Embedding of `TasksQueue.average_processing_time` (`tasks.py` lines 127-135): `0.0`
when no task has completed, otherwise
`round(self.processing_time / self.completed_tasks, 1)` (the division
embedded as the fallible `pyDiv`). -/
def averageProcessingTime (st : TQState) : PyOutcome ℚ :=
  if st.completed_tasks = 0 then .ok 0
  else
    match pyDiv st.processing_time (st.completed_tasks : ℚ) with
    | .ok q => .ok (pyRound1 q)
    | .raised m => .raised m

/-- Embedding of `TasksQueue.wait_in_queue` (`tasks.py` lines 137-150):
`active_tasks = position or self.get_active_tasks_count()` (Python `or`, so a
`None` *or zero* position falls back to the active count), times the average
processing time, rounded to one decimal. -/
def waitInQueue (st : TQState) (position : Option Nat) : PyOutcome ℚ :=
  let active_tasks : Nat :=
    match position with
    | some p => if p = 0 then getActiveTasksCount st else p
    | none => getActiveTasksCount st
  match averageProcessingTime st with
  | .ok avg => .ok (pyRound1 ((active_tasks : ℚ) * avg))
  | .raised m => .raised m

/-! ## Concrete sample data used by witnesses and counterexamples -/

/-- Sample payload: the spec §8 scenario request (fs25 map at
(45.2855, 20.2375), size 512). -/
def samplePayload : MainSettingsPayload :=
  { game_code := "fs25", dtm_code := "srtm30"
    lat := 452855 / 10000, lon := 202375 / 10000, size := 512 }

/-- Sample job whose generation body completes successfully. -/
def sampleJobOk : Job :=
  ⟨"sess1", samplePayload, .completed "/mfs/data/sess1" "/mfs/data/sess1.zip" []⟩

/-- Sample job whose generation body raises (invalid DTM provider code). -/
def sampleJobBad : Job :=
  ⟨"sess1", samplePayload, .raised "DTM provider with code nope not found." (some "/mfs/data/sess1")⟩

/-- Sample follow-up job, used to watch whether the worker keeps dequeuing. -/
def sampleJob2 : Job :=
  ⟨"sess2", samplePayload, .completed "/mfs/data/sess2" "/mfs/data/sess2.zip" []⟩

/-- Small cache (capacity 2, TTL 10) for concrete eviction scenarios. -/
def smallCache : CleanableTTLCache := { maxsize := 2, ttl := 10, items := [] }

/-- Concrete successful entry owning directory `d1`. -/
def entryD1 : StorageEntry :=
  { success := true, description := "ok", directory := some "d1", file_path := some "f1" }

/-- Concrete successful entry owning directory `d2`. -/
def entryD2 : StorageEntry :=
  { success := true, description := "ok", directory := some "d2", file_path := some "f2" }

/-- Concrete successful entry owning directory `d3`. -/
def entryD3 : StorageEntry :=
  { success := true, description := "ok", directory := some "d3", file_path := some "f3" }

/-- Responses of `get_task` that are derived from a found cache entry, as
opposed to the three cache-miss responses. -/
def answeredFromCache : TaskResponse → Bool
  | .processing202 _ => false
  | .stillInQueue204 _ => false
  | .notFound404 _ => false
  | .failed400 _ => true
  | .noFilePath404 _ => true
  | .fileMissing404 _ => true
  | .statusOk _ => true
  | .previewsAttributeError => true
  | .fileResponse _ => true

/-- Concrete cache holding only a failed terminal entry for `sess1`. -/
def failedEntryCache : CleanableTTLCache :=
  ⟨1000, 3600, [⟨"sess1", ⟨false, "Task failed with error: boom", none, none⟩, 9⟩]⟩

/-- Concrete queue state in which `sess1` is mid-execution. -/
def processingState : TQState :=
  { initTQ with processing_now := some "sess1", active_sessions := ["sess1"] }

/-- Concrete queue state in which `sess1` is queued but not processing. -/
def queuedState : TQState :=
  { initTQ with active_sessions := ["sess1"] }

/-- Number of jobs currently queued for a session identity. -/
def countSessionJobs (st : TQState) (s : String) : Nat :=
  st.tasks.countP (fun j => j.session_name == s)

/-- The C7 claim as stated: for two submissions with identical payload (hence
identical derived identity), the second arriving while the first is still
tracked, the system either rejects the second or reuses the first
submission's in-flight tracking (enqueues no new job); it never silently
enqueues both. -/
def duplicateSubmissionPolicy : Prop :=
  ∀ (cfg : AdmissionConfig) (st : TQState) (p : MainSettingsPayload)
    (o1 o2 : BodyOutcome) (now1 now2 : Nat),
    (mapGeneration cfg (mapGeneration cfg st p o1 now1).2 p o2 now2).1
        = MapGenResult.highDemand429 ∨
    (mapGeneration cfg (mapGeneration cfg st p o1 now1).2 p o2 now2).2.tasks
        = (mapGeneration cfg st p o1 now1).2.tasks

/-- Concrete start state for the C6 scenario: the sample job freshly
submitted to an idle queue. -/
def c6StartState : TQState := addTask initTQ sampleJobOk 5

/-- The successive states of the C6 scenario trace: statement-level worker
states on the concrete start state. -/
def c6S1 : TQState := wGet c6StartState []

/-- C6 scenario trace, state after line 257. -/
def c6S2 : TQState := wSetProcessing c6S1 sampleJobOk.session_name

/-- C6 scenario trace, state after lines 258-265. -/
def c6S3 : TQState :=
  wSetProcessingInfo c6S2 (mkHistoryEntry sampleJobOk.session_name sampleJobOk.payload "Started processing" 6)

/-- C6 scenario trace, state after line 266. -/
def c6S4 : TQState := wRemoveActiveInfo c6S3 sampleJobOk.session_name

/-- C6 scenario trace, state after the counter update. -/
def c6S5 : TQState :=
  wBumpCounters c6S4 (taskGeneration sampleJobOk emptyStorage [] 6).1

/-- C6 scenario trace, state after the finalizer discard (line 302). -/
def c6S6 : TQState := wDiscard c6S5 sampleJobOk.session_name

/-- C6 scenario trace, state after line 304. -/
def c6S7 : TQState := wClearProcessing c6S6

/-- C6 scenario trace, state after line 305. -/
def c6S8 : TQState := wClearProcessingInfo c6S7

/-- C6 scenario trace, state after line 317. -/
def c6S9 : TQState :=
  wAppendHistory c6S8 (mkHistoryEntry sampleJobOk.session_name sampleJobOk.payload
    (historyStatusOf (taskGeneration sampleJobOk emptyStorage [] 6).1) 6)

/-- C6 scenario trace, final state of the iteration (line 320). -/
def c6S10 : TQState := wAddTime c6S9 0

/-! ## Helper lemmas -/

/-- Membership after a Python `set.add`. -/
theorem setAdd_contains (l : List String) (s : String) :
    (setAdd l s).contains s = true := by
  unfold setAdd
  split
  · assumption
  · simp

/-- Looking a key up after filtering that key out of the items finds
nothing. -/
theorem find_filter_ne (items : List CacheItem) (k : String) :
    (items.filter (fun it => it.key ≠ k)).find? (fun it => it.key == k) = none := by
  rw [List.find?_eq_none]
  intro it hmem
  have h2 := List.of_mem_filter hmem
  simpa using h2

/-- The filesystem result of `cleanableDelitem` never contains the truthy
directory of the live entry being deleted. -/
theorem cleanableDelitem_clears_dir (c : CleanableTTLCache) (fs : FS) (k : String)
    (now : Nat) (e : StorageEntry) (d : String)
    (hlive : c.ttlGet k now = some e) (hdir : e.directory = some d) (hd : d ≠ "") :
    d ∉ (c.cleanableDelitem fs k now).2 := by
  unfold CleanableTTLCache.cleanableDelitem
  simp only [hlive, hdir]
  by_cases hmem : d ∈ fs
  · simp [hd, hmem, rmtree, List.mem_filter]
  · simp [hd, hmem, rmtree]

/-! ## Claims -/

/-- C9: for every valid (coordinates, game_code) pair the session-identity
derivation (`get_session_name`, delegating to the pure
`suggest_directory_name`) is deterministic and side-effect free: two calls
with the same coordinates and game code yield the same identity string. -/
theorem c9_session_identity_deterministic
    (c1 c2 : ℚ × ℚ) (g1 g2 : String) (hc : c1 = c2) (hg : g1 = g2) :
    getSessionName c1 g1 = getSessionName c2 g2 := by
  rw [hc, hg]

/-- Witness for C9 at the spec §8 coordinates and game code. -/
theorem c9_session_identity_deterministic_witness :
    getSessionName (452855 / 10000, 202375 / 10000) "fs25"
      = getSessionName (452855 / 10000, 202375 / 10000) "fs25" :=
  c9_session_identity_deterministic
    (452855 / 10000, 202375 / 10000) (452855 / 10000, 202375 / 10000)
    "fs25" "fs25" rfl rfl

/-- C10: `average_processing_time` is total and never divides by zero — with
zero completed tasks it returns `0.0` — and `wait_in_queue` returns a defined
(non-exceptional) estimate in every state and for every position argument. -/
theorem c10_wait_estimators_total (st : TQState) (position : Option Nat) :
    (∃ v, averageProcessingTime st = .ok v) ∧
    (st.completed_tasks = 0 → averageProcessingTime st = .ok 0) ∧
    (∃ w, waitInQueue st position = .ok w) := by
  have havg : ∃ v, averageProcessingTime st = .ok v := by
    unfold averageProcessingTime
    by_cases h0 : st.completed_tasks = 0
    · exact ⟨0, by simp [h0]⟩
    · refine ⟨pyRound1 (st.processing_time / (st.completed_tasks : ℚ)), ?_⟩
      have hne : (st.completed_tasks : ℚ) ≠ 0 := by
        exact_mod_cast h0
      simp [h0, pyDiv, hne]
  refine ⟨havg, ?_, ?_⟩
  · intro h0
    simp [averageProcessingTime, h0]
  · obtain ⟨v, hv⟩ := havg
    unfold waitInQueue
    rw [hv]
    exact ⟨_, rfl⟩

/-- Witness for C10 on the freshly-constructed queue state (no task has ever
completed). -/
theorem c10_wait_estimators_total_witness :
    (∃ v, averageProcessingTime initTQ = .ok v) ∧
    averageProcessingTime initTQ = .ok 0 ∧
    (∃ w, waitInQueue initTQ none = .ok w) :=
  ⟨(c10_wait_estimators_total initTQ none).1,
   (c10_wait_estimators_total initTQ none).2.1 rfl,
   (c10_wait_estimators_total initTQ none).2.2⟩

/-- C5: by the time `add_task` returns, the session identity is in the
Active Session Set and an "Added to queue" History Entry has been recorded,
so a status query issued immediately after submission (for a session with no
terminal cache entry) reports the session as active (currently processing or
still queued), never as unknown. -/
theorem c5_submit_synchronous (st : TQState) (j : Job) (now : Nat)
    (c : CleanableTTLCache) (files : List String) (ep : TaskEndpoint)
    (hmiss : getEntry c j.session_name now = none) :
    isInQueue (addTask st j now) j.session_name = true ∧
    (addTask st j now).active_sessions_info.getLast?
      = some (mkHistoryEntry j.session_name j.payload "Added to queue" now) ∧
    (getTask c (addTask st j now) files j.session_name ep now
        = .processing202 j.session_name ∨
     getTask c (addTask st j now) files j.session_name ep now
        = .stillInQueue204 j.session_name) := by
  have hmem : isInQueue (addTask st j now) j.session_name = true := by
    unfold isInQueue addTask
    exact setAdd_contains _ _
  refine ⟨hmem, ?_, ?_⟩
  · unfold addTask
    simp
  · unfold getTask
    rw [hmiss]
    by_cases hp : isProcessing (addTask st j now) j.session_name
    · left; simp [hp]
    · right; simp [hp, hmem]

/-- Witness for C5: submitting the sample job to the fresh queue with an
empty result cache. -/
theorem c5_submit_synchronous_witness :
    isInQueue (addTask initTQ sampleJobOk 0) sampleJobOk.session_name = true ∧
    (addTask initTQ sampleJobOk 0).active_sessions_info.getLast?
      = some (mkHistoryEntry sampleJobOk.session_name sampleJobOk.payload "Added to queue" 0) ∧
    (getTask emptyStorage (addTask initTQ sampleJobOk 0) [] sampleJobOk.session_name .status 0
        = .processing202 sampleJobOk.session_name ∨
     getTask emptyStorage (addTask initTQ sampleJobOk 0) [] sampleJobOk.session_name .status 0
        = .stillInQueue204 sampleJobOk.session_name) :=
  c5_submit_synchronous initTQ sampleJobOk 0 emptyStorage [] .status rfl

/-- C8: a `get` of a present (live) key followed by a `remove` leaves the key
absent — a subsequent `get` returns the explicit not-found value `None` — and
`remove` on an already-absent key is a no-op on both the cache and the
filesystem. -/
theorem c8_get_remove_absent (c : CleanableTTLCache) (fs : FS) (k : String)
    (now : Nat) :
    (∀ e, getEntry c k now = some e →
      getEntry (removeEntry c fs k now).1 k now = none) ∧
    (getEntry c k now = none → removeEntry c fs k now = (c, fs)) := by
  constructor
  · intro e hget
    unfold removeEntry
    have hcont : ttlContains c k now = true := by
      unfold CleanableTTLCache.ttlContains
      rw [show ttlGet c k now = some e from hget]
      rfl
    rw [hcont]
    simp only [if_true]
    unfold popEntry CleanableTTLCache.ttlPop
    rw [show ttlGet c k now = some e from hget]
    simp only
    unfold getEntry CleanableTTLCache.ttlGet CleanableTTLCache.cleanableDelitem
      CleanableTTLCache.lookupItem
    simp only
    rw [find_filter_ne]
  · intro hget
    unfold removeEntry
    have hcont : ttlContains c k now = false := by
      unfold CleanableTTLCache.ttlContains
      rw [show ttlGet c k now = none from hget]
      rfl
    rw [hcont]
    simp

/-- Witness for C8 on a concrete two-entry cache: removing `k1` after getting
it leaves it absent, and removing the never-present `kX` is a no-op. -/
theorem c8_get_remove_absent_witness :
    (getEntry
        (removeEntry ⟨2, 10, [⟨"k1", entryD1, 10⟩, ⟨"k2", entryD2, 10⟩]⟩ ["d1", "d2"] "k1" 1).1
        "k1" 1 = none) ∧
    removeEntry ⟨2, 10, [⟨"k1", entryD1, 10⟩, ⟨"k2", entryD2, 10⟩]⟩ ["d1", "d2"] "kX" 1
      = (⟨2, 10, [⟨"k1", entryD1, 10⟩, ⟨"k2", entryD2, 10⟩]⟩, ["d1", "d2"]) :=
  ⟨(c8_get_remove_absent ⟨2, 10, [⟨"k1", entryD1, 10⟩, ⟨"k2", entryD2, 10⟩]⟩
      ["d1", "d2"] "k1" 1).1 entryD1 (by decide),
   (c8_get_remove_absent ⟨2, 10, [⟨"k1", entryD1, 10⟩, ⟨"k2", entryD2, 10⟩]⟩
      ["d1", "d2"] "kX" 1).2 (by decide)⟩


/-- C4: status/retrieval resolution order in `get_task`: the Result Cache is
consulted first — a found entry is always answered from the cache; only on a
cache miss is `is_processing` checked, and only if that is false is
`is_in_queue` checked (so a session mid-execution is reported as processing,
never as merely queued, even though it is also in the active set); if neither
terminal nor active, the distinct not-found signal (HTTP 404) is returned. -/
theorem c4_status_resolution_order (c : CleanableTTLCache) (st : TQState)
    (files : List String) (tid : String) (ep : TaskEndpoint) (now : Nat) :
    (∀ e, getEntry c tid now = some e →
      answeredFromCache (getTask c st files tid ep now) = true) ∧
    (getEntry c tid now = none → isProcessing st tid = true →
      getTask c st files tid ep now = .processing202 tid) ∧
    (getEntry c tid now = none → isProcessing st tid = false →
      isInQueue st tid = true →
      getTask c st files tid ep now = .stillInQueue204 tid) ∧
    (getEntry c tid now = none → isProcessing st tid = false →
      isInQueue st tid = false →
      getTask c st files tid ep now = .notFound404 tid) := by
  refine ⟨?_, ?_, ?_, ?_⟩
  · intro e hget
    unfold getTask
    rw [hget]
    by_cases hs : e.success = false
    · simp [hs, answeredFromCache]
    · by_cases hf : optStrTruthy e.file_path = false
      · simp [hs, hf, answeredFromCache]
      · by_cases hm : (e.file_path.getD "") ∈ files
        · cases ep <;> simp [hs, hf, hm, answeredFromCache]
        · cases ep <;> simp [hs, hf, hm, answeredFromCache]
  · intro hget hp
    unfold getTask
    rw [hget]
    simp [hp]
  · intro hget hp hq
    unfold getTask
    rw [hget]
    simp [hp, hq]
  · intro hget hp hq
    unfold getTask
    rw [hget]
    simp [hp, hq]


/-- Witness for C4: a cache with a failed terminal entry answers from the
cache; with an empty cache, a processing session gets HTTP 202, a queued one
HTTP 204, an unknown one HTTP 404. -/
theorem c4_status_resolution_order_witness :
    answeredFromCache (getTask failedEntryCache initTQ [] "sess1" .status 0) = true ∧
    getTask emptyStorage processingState [] "sess1" .status 0 = .processing202 "sess1" ∧
    getTask emptyStorage queuedState [] "sess1" .status 0 = .stillInQueue204 "sess1" ∧
    getTask emptyStorage initTQ [] "sess1" .status 0 = .notFound404 "sess1" :=
  ⟨(c4_status_resolution_order failedEntryCache initTQ [] "sess1" .status 0).1
      ⟨false, "Task failed with error: boom", none, none⟩ (by decide),
   (c4_status_resolution_order emptyStorage processingState [] "sess1" .status 0).2.1
      rfl (by decide),
   (c4_status_resolution_order emptyStorage queuedState [] "sess1" .status 0).2.2.1
      rfl (by decide) (by decide),
   (c4_status_resolution_order emptyStorage initTQ [] "sess1" .status 0).2.2.2
      rfl (by decide) (by decide)⟩

/-- C1 (code bug): the claim — exactly one Result Cache Entry written per
executed job — is the documented intent (storage docstrings, the consumers in
`components/task.py` reading `entry.previews`), but the `finally` block of
`task_generation` constructs the `StorageEntry` with a `previews` keyword the
named tuple does not declare: the construction raises `TypeError`, so
`Storage().add_entry` on line 633 never runs.  Evaluated here on a submitted
job whose generation body completes successfully: `task_generation` raises,
and after the worker has finished with the job the Result Cache holds ZERO
entries for its session (and zero entries overall) instead of exactly one. -/
theorem c1_exactly_one_entry_violated :
    namedTupleAccepts storageEntryFields taskGenerationEntryKwargs = false ∧
    (taskGeneration sampleJobOk emptyStorage [] 0).1
      = .raised "TypeError: StorageEntry got an unexpected keyword argument previews" ∧
    (workerRun 1 (addTask initTQ sampleJobOk 0) emptyStorage [] 0 0).2.1.items = [] ∧
    getEntry (workerRun 1 (addTask initTQ sampleJobOk 0) emptyStorage [] 0 0).2.1
      sampleJobOk.session_name 0 = none := by
  refine ⟨by decide, rfl, rfl, rfl⟩

/-- C2 (code bug): the claim — exceptions are caught at the job-execution
boundary, recorded as a failed entry, and the worker loop survives — fails
twice in the code: the failed `StorageEntry` construction itself raises
`TypeError` (no `previews` field), so no failed entry is recorded, and the
`except` arm of `TasksQueue._worker` ends in a bare `raise` (line 299) that
re-raises out of the `while True` loop, so the worker thread terminates.
Evaluated on a queue holding a job whose generation raises (invalid DTM
provider) followed by a second job: the worker dies on the first job, the
second job is never dequeued, and no failed cache entry exists for the first
session. -/
theorem c2_worker_survival_violated :
    (workerRun 2 (addTask (addTask initTQ sampleJobBad 0) sampleJob2 0)
        emptyStorage [] 0 0).2.2.2 = false ∧
    (workerRun 2 (addTask (addTask initTQ sampleJobBad 0) sampleJob2 0)
        emptyStorage [] 0 0).1.tasks = [sampleJob2] ∧
    getEntry (workerRun 2 (addTask (addTask initTQ sampleJobBad 0) sampleJob2 0)
        emptyStorage [] 0 0).2.1 sampleJobBad.session_name 0 = none := by
  refine ⟨rfl, ?_, rfl⟩
  show _ = _
  rfl


/-- Counterexample to C7 as stated: on a private server (no capacity check),
submitting the §8 sample payload twice derives the same identity both times,
yet the second submission is accepted and a second job is enqueued — the
queue then holds two jobs for the same identity. -/
theorem c7_duplicate_policy_counterexample : ¬ duplicateSubmissionPolicy := by
  intro h
  rcases h ⟨false, 10⟩ initTQ samplePayload (.raised "x" none) (.raised "x" none) 0 0
    with h1 | h1
  · rw [show (mapGeneration ⟨false, 10⟩
        (mapGeneration ⟨false, 10⟩ initTQ samplePayload (.raised "x" none) 0).2
        samplePayload (.raised "x" none) 0).1
        = MapGenResult.accepted (getSessionNameFromPayload samplePayload) from rfl] at h1
    exact MapGenResult.noConfusion h1
  · have hlen := congrArg List.length h1
    rw [show ((mapGeneration ⟨false, 10⟩
        (mapGeneration ⟨false, 10⟩ initTQ samplePayload (.raised "x" none) 0).2
        samplePayload (.raised "x" none) 0).2.tasks.length) = 2 from rfl,
      show ((mapGeneration ⟨false, 10⟩ initTQ samplePayload
        (.raised "x" none) 0).2.tasks.length) = 1 from rfl] at hlen
    exact absurd hlen (by decide)

/-- C7 amended: both submissions derive the same session identity, but the
code applies neither a duplicate rejection nor a reuse of the in-flight
tracking: whenever the (duplicate-blind) public capacity check does not fire,
the second submission is accepted with the same task id and a second job for
that same identity is silently enqueued. -/
theorem c7_duplicate_silently_enqueued (cfg : AdmissionConfig) (st : TQState)
    (p : MainSettingsPayload) (o1 o2 : BodyOutcome) (now1 now2 : Nat)
    (h1 : ¬(cfg.isPublic = true ∧ cfg.publicQueueLimit ≤ getActiveTasksCount st))
    (h2 : ¬(cfg.isPublic = true ∧ cfg.publicQueueLimit
        ≤ getActiveTasksCount (mapGeneration cfg st p o1 now1).2)) :
    (mapGeneration cfg st p o1 now1).1
        = .accepted (getSessionNameFromPayload p) ∧
    (mapGeneration cfg (mapGeneration cfg st p o1 now1).2 p o2 now2).1
        = .accepted (getSessionNameFromPayload p) ∧
    countSessionJobs (mapGeneration cfg (mapGeneration cfg st p o1 now1).2 p o2 now2).2
        (getSessionNameFromPayload p)
      = countSessionJobs st (getSessionNameFromPayload p) + 2 := by
  have e1 : mapGeneration cfg st p o1 now1
      = (MapGenResult.accepted (getSessionNameFromPayload p),
         addTask st ⟨getSessionNameFromPayload p, p, o1⟩ now1) := by
    unfold mapGeneration
    simp [h1]
  have h2a : ¬(cfg.isPublic = true ∧ cfg.publicQueueLimit
      ≤ getActiveTasksCount (addTask st ⟨getSessionNameFromPayload p, p, o1⟩ now1)) := by
    rw [e1] at h2
    exact h2
  have e2 : mapGeneration cfg (addTask st ⟨getSessionNameFromPayload p, p, o1⟩ now1) p o2 now2
      = (MapGenResult.accepted (getSessionNameFromPayload p),
         addTask (addTask st ⟨getSessionNameFromPayload p, p, o1⟩ now1)
           ⟨getSessionNameFromPayload p, p, o2⟩ now2) := by
    unfold mapGeneration
    simp [h2a]
  refine ⟨by rw [e1], by rw [e1, e2], ?_⟩
  rw [e1, e2]
  unfold countSessionJobs addTask
  simp [List.countP_append, List.countP_cons]

/-- Witness for C7 amended: the private-server double submission of the
sample payload. -/
theorem c7_duplicate_silently_enqueued_witness :
    (mapGeneration ⟨false, 10⟩ initTQ samplePayload (.raised "x" none) 0).1
        = .accepted (getSessionNameFromPayload samplePayload) ∧
    (mapGeneration ⟨false, 10⟩
        (mapGeneration ⟨false, 10⟩ initTQ samplePayload (.raised "x" none) 0).2
        samplePayload (.raised "x" none) 0).1
        = .accepted (getSessionNameFromPayload samplePayload) ∧
    countSessionJobs (mapGeneration ⟨false, 10⟩
        (mapGeneration ⟨false, 10⟩ initTQ samplePayload (.raised "x" none) 0).2
        samplePayload (.raised "x" none) 0).2
        (getSessionNameFromPayload samplePayload)
      = countSessionJobs initTQ (getSessionNameFromPayload samplePayload) + 2 :=
  c7_duplicate_silently_enqueued ⟨false, 10⟩ initTQ samplePayload
    (.raised "x" none) (.raised "x" none) 0 0
    (by simp) (by simp)


/-- Counterexample to C6 as stated: in the worker's `finally` block the
active-set discard (`tasks.py` line 302) runs *before* `processing_now` is
cleared (line 304), so the trace state right after the discard — index 6 of
the statement-level trace, observable by any status query thread — has
`is_processing` true while `is_in_queue` is already false, violating
"is_processing implies membership at every observable instant". -/
theorem c6_processing_membership_counterexample :
    isProcessing ((workerTrace c6StartState emptyStorage [] 6 0).getD 6 initTQ)
        sampleJobOk.session_name = true ∧
    isInQueue ((workerTrace c6StartState emptyStorage [] 6 0).getD 6 initTQ)
        sampleJobOk.session_name = false := by
  constructor <;> rfl

/-- Field invariance of the counter-update step. -/
theorem wBumpCounters_active_sessions (st : TQState) (fr : PyOutcome Bool) :
    (wBumpCounters st fr).active_sessions = st.active_sessions := by
  cases fr with
  | ok b => cases b <;> rfl
  | raised m => rfl

/-- The counter-update step leaves `processing_now` unchanged. -/
theorem wBumpCounters_processing_now (st : TQState) (fr : PyOutcome Bool) :
    (wBumpCounters st fr).processing_now = st.processing_now := by
  cases fr with
  | ok b => cases b <;> rfl
  | raised m => rfl

/-- C6 amended: during one worker iteration on a submitted job — the eleven
observable states `[st0, s1, ..., s10]` of the statement-level trace —
(1) the session stays in the Active Session Set continuously from admission
through every observable state up to the finalizer's discard (states `st0`
to `s5`);
(2) `is_processing` implies Active-Session-Set membership at every
observable state *except* the single state `s6` between the finalizer's
`active_sessions.discard` (line 302) and the clearing of `processing_now`
(line 304);
(3) the converse implication does not hold: in the admission state the
session is active but not processing. -/
theorem c6_processing_membership_amended
    (st0 s1 s2 s3 s4 s5 s6 s7 s8 s9 s10 : TQState)
    (c : CleanableTTLCache) (fs : FS) (now : Nat) (em : ℚ)
    (j : Job) (rest : List Job)
    (hq : st0.tasks = j :: rest)
    (hpn : st0.processing_now = none)
    (hact : st0.active_sessions.contains j.session_name = true)
    (htr : workerTrace st0 c fs now em
      = [st0, s1, s2, s3, s4, s5, s6, s7, s8, s9, s10]) :
    (∀ st ∈ [st0, s1, s2, s3, s4, s5], isInQueue st j.session_name = true) ∧
    (∀ ident : String, ∀ st ∈ [st0, s1, s2, s3, s4, s5],
      isProcessing st ident = true → isInQueue st ident = true) ∧
    (∀ ident : String, ∀ st ∈ [s7, s8, s9, s10],
      isProcessing st ident = true → isInQueue st ident = true) ∧
    (isInQueue st0 j.session_name = true ∧
      isProcessing st0 j.session_name = false) := by
  rcases htg : taskGeneration j c fs now with ⟨fr, c2, fs2⟩
  unfold workerTrace workerIteration at htr
  rw [hq] at htr
  simp only [htg, List.cons.injEq, and_true] at htr
  obtain ⟨-, e1, e2, e3, e4, e5, e6, e7, e8, e9, e10⟩ := htr
  subst e1; subst e2; subst e3; subst e4; subst e5
  subst e6; subst e7; subst e8; subst e9; subst e10
  have hmem1 : ∀ st ∈ [st0, wGet st0 rest,
      wSetProcessing (wGet st0 rest) j.session_name,
      wSetProcessingInfo (wSetProcessing (wGet st0 rest) j.session_name)
        (mkHistoryEntry j.session_name j.payload "Started processing" now),
      wRemoveActiveInfo (wSetProcessingInfo (wSetProcessing (wGet st0 rest) j.session_name)
        (mkHistoryEntry j.session_name j.payload "Started processing" now)) j.session_name,
      wBumpCounters (wRemoveActiveInfo (wSetProcessingInfo
        (wSetProcessing (wGet st0 rest) j.session_name)
        (mkHistoryEntry j.session_name j.payload "Started processing" now)) j.session_name) fr],
      st.active_sessions = st0.active_sessions := by
    intro st hst
    simp only [List.mem_cons, List.not_mem_nil, or_false] at hst
    rcases hst with rfl | rfl | rfl | rfl | rfl | rfl
    · rfl
    · rfl
    · rfl
    · rfl
    · rfl
    · rw [wBumpCounters_active_sessions]
      rfl
  refine ⟨?_, ?_, ?_, ?_, ?_⟩
  · intro st hst
    unfold isInQueue
    rw [hmem1 st hst]
    exact hact
  · intro ident st hst hproc
    unfold isInQueue
    rw [hmem1 st hst]
    simp only [List.mem_cons, List.not_mem_nil, or_false] at hst
    have hpr : st.processing_now = none ∨ st.processing_now = some j.session_name := by
      rcases hst with rfl | rfl | rfl | rfl | rfl | rfl
      · exact Or.inl hpn
      · exact Or.inl hpn
      · exact Or.inr rfl
      · exact Or.inr rfl
      · exact Or.inr rfl
      · rw [wBumpCounters_processing_now]
        exact Or.inr rfl
    unfold isProcessing at hproc
    rcases hpr with hpr | hpr
    · rw [hpr] at hproc
      exact absurd hproc (by simp)
    · rw [hpr] at hproc
      have : j.session_name = ident := by simpa using hproc
      rw [← this]
      exact hact
  · intro ident st hst hproc
    have hpr : st.processing_now = none := by
      simp only [List.mem_cons, List.not_mem_nil, or_false] at hst
      rcases hst with rfl | rfl | rfl | rfl
      · rfl
      · rfl
      · rfl
      · rfl
    unfold isProcessing at hproc
    rw [hpr] at hproc
    exact absurd hproc (by simp)
  · unfold isInQueue
    exact hact
  · unfold isProcessing
    rw [hpn]
    rfl


/-- Witness for C6 amended, on the concrete start state of the C6 scenario
with the successful sample job. -/
theorem c6_processing_membership_amended_witness :
    (∀ st ∈ [c6StartState, c6S1, c6S2, c6S3, c6S4, c6S5],
      isInQueue st sampleJobOk.session_name = true) ∧
    (∀ ident : String, ∀ st ∈ [c6StartState, c6S1, c6S2, c6S3, c6S4, c6S5],
      isProcessing st ident = true → isInQueue st ident = true) ∧
    (∀ ident : String, ∀ st ∈ [c6S7, c6S8, c6S9, c6S10],
      isProcessing st ident = true → isInQueue st ident = true) ∧
    (isInQueue c6StartState sampleJobOk.session_name = true ∧
      isProcessing c6StartState sampleJobOk.session_name = false) :=
  c6_processing_membership_amended c6StartState c6S1 c6S2 c6S3 c6S4 c6S5 c6S6
    c6S7 c6S8 c6S9 c6S10 emptyStorage [] 6 0 sampleJobOk [] rfl rfl
    (by decide) rfl

/-- The eviction loop halts immediately when the while-condition is false,
independently of the remaining fuel. -/
theorem evictLoop_stop (fuel : Nat) (c : CleanableTTLCache) (fs : FS) (now : Nat)
    (h : ¬(c.maxsize < c.items.length + 1 ∧ c.items ≠ [])) :
    evictLoop fuel c fs now = (c, fs) := by
  cases fuel with
  | zero => rfl
  | succ n => simp [evictLoop, h]

/-- Counterexample to C3 as stated: a capacity-2, TTL-10 cache receives at
time 0 an entry for `k1` owning the existing directory `d1`; at time 20
(after `k1` has expired) a second entry is inserted.  The insertion's
`expire()` sweep removes `k1` from the cache — but `cachetools` runs that
sweep through the base-class `Cache.__delitem__`, bypassing the
`CleanableTTLCache` override — so `k1` is gone from the cache while its
directory `d1` still exists, contradicting "any removal deletes the entry's
owning directory". -/
theorem c3_ttl_expiry_leak_counterexample :
    getEntry (addEntry smallCache ["d1"] "k1" entryD1 0).1 "k1" 0 = some entryD1 ∧
    CleanableTTLCache.lookupItem
      (addEntry (addEntry smallCache ["d1"] "k1" entryD1 0).1
        (addEntry smallCache ["d1"] "k1" entryD1 0).2 "k2" entryD2 20).1 "k1" = none ∧
    "d1" ∈ (addEntry (addEntry smallCache ["d1"] "k1" entryD1 0).1
        (addEntry smallCache ["d1"] "k1" entryD1 0).2 "k2" entryD2 20).2 := by
  refine ⟨rfl, rfl, ?_⟩
  decide

/-- C3 amended: of the three removal paths, explicit removal of a live entry
(conjunct 1) and capacity eviction of the oldest live entry during an
insertion (conjunct 2) do delete the entry's owning directory; removal by
TTL expiry does not — when, after the expiry sweep, the cache is below
capacity, an insertion leaves the filesystem untouched no matter which
expired entries the sweep just dropped (conjunct 3). -/
theorem c3_eviction_cleanup_amended (c : CleanableTTLCache) (fs : FS)
    (k knew : String) (now : Nat) (e enew : StorageEntry) (d : String)
    (it : CacheItem) (rest : List CacheItem) :
    (getEntry c k now = some e → e.directory = some d → d ≠ "" →
      d ∉ (removeEntry c fs k now).2) ∧
    (c.items = it :: rest → now < it.expires →
      c.lookupItem knew = none → c.items.length = c.maxsize →
      it.entry.directory = some d → d ≠ "" →
      d ∉ (addEntry c fs knew enew now).2) ∧
    ((c.expire now).items.length < c.maxsize →
      (addEntry c fs knew enew now).2 = fs) := by
  refine ⟨?_, ?_, ?_⟩
  · intro hget hdir hd
    have hget2 : c.ttlGet k now = some e := hget
    have hre : removeEntry c fs k now = c.cleanableDelitem fs k now := by
      unfold removeEntry popEntry CleanableTTLCache.ttlPop CleanableTTLCache.ttlContains
      rw [hget2]
      rfl
    rw [hre]
    exact cleanableDelitem_clears_dir c fs k now e d hget hdir hd
  · intro hitems hlive hfresh hlen hdir hd
    have hexpitems : expireLoop c.items now = c.items := by
      rw [hitems]
      simp [expireLoop, hlive]
    have hc1 : c.expire now = c := by
      unfold CleanableTTLCache.expire
      rw [hexpitems]
    have hmax1 : 1 ≤ c.maxsize := by
      rw [← hlen, hitems]
      simp
    have hget : c.ttlGet it.key now = some it.entry := by
      unfold CleanableTTLCache.ttlGet CleanableTTLCache.lookupItem
      rw [hitems]
      simp [List.find?, hlive]
    have hstop : ¬((c.cleanableDelitem fs it.key now).1.maxsize
        < (c.cleanableDelitem fs it.key now).1.items.length + 1 ∧
        (c.cleanableDelitem fs it.key now).1.items ≠ []) := by
      intro hcond
      have hsub : (c.cleanableDelitem fs it.key now).1.items.length ≤ rest.length := by
        unfold CleanableTTLCache.cleanableDelitem
        simp only
        rw [hitems]
        simp only [List.filter_cons]
        have hkey : (decide (it.key ≠ it.key)) = false := by simp
        rw [hkey]
        exact List.length_filter_le _ _
      have hmaxeq : (c.cleanableDelitem fs it.key now).1.maxsize = c.maxsize := rfl
      have hrl : rest.length + 1 = c.maxsize := by
        rw [← hlen, hitems]
        simp
      omega
    have hev : evictLoop c.items.length c fs now = (c.cleanableDelitem fs it.key now) := by
      rw [hitems]
      show evictLoop (rest.length + 1) c fs now = _
      unfold evictLoop
      have hcond : c.maxsize < c.items.length + 1 ∧ c.items ≠ [] := by
        constructor
        · rw [hlen]
          omega
        · rw [hitems]
          simp
      rw [if_pos hcond]
      have hpop : popitemStep c fs now = c.cleanableDelitem fs it.key now := by
        unfold CleanableTTLCache.popitemStep
        rw [hitems]
        rfl
      rw [hpop]
      exact evictLoop_stop _ _ _ _ hstop
    have hres : (addEntry c fs knew enew now).2 = (c.cleanableDelitem fs it.key now).2 := by
      unfold addEntry CleanableTTLCache.ttlSetitem
      rw [hc1]
      have hks : (c.lookupItem knew).isSome = false := by
        rw [hfresh]
        rfl
      simp only [hks, Bool.false_eq_true, if_false]
      rw [hev]
    rw [hres]
    exact cleanableDelitem_clears_dir c fs it.key now it.entry d hget hdir hd
  · intro hroom
    unfold addEntry CleanableTTLCache.ttlSetitem
    by_cases hk : ((c.expire now).lookupItem knew).isSome = true
    · simp [hk]
    · simp only [hk, Bool.false_eq_true, if_false]
      rw [evictLoop_stop]
      intro hcond
      have hm : (c.expire now).maxsize = c.maxsize := rfl
      omega

/-- Witness for C3 amended: a capacity-2 cache holding live entries for `k1`
(directory `d1`) and `k2` (directory `d2`).  Explicitly removing `k1`
deletes `d1`; inserting a fresh `k3` into the full cache evicts `k1` and
deletes `d1`; and inserting into a one-entry (below-capacity) cache leaves
the filesystem unchanged. -/
theorem c3_eviction_cleanup_amended_witness :
    ("d1" ∉ (removeEntry ⟨2, 10, [⟨"k1", entryD1, 10⟩, ⟨"k2", entryD2, 10⟩]⟩
        ["d1", "d2"] "k1" 1).2) ∧
    ("d1" ∉ (addEntry ⟨2, 10, [⟨"k1", entryD1, 10⟩, ⟨"k2", entryD2, 10⟩]⟩
        ["d1", "d2"] "k3" entryD3 1).2) ∧
    (addEntry ⟨2, 10, [⟨"k1", entryD1, 10⟩]⟩ ["d1"] "k2" entryD2 1).2 = ["d1"] :=
  ⟨(c3_eviction_cleanup_amended ⟨2, 10, [⟨"k1", entryD1, 10⟩, ⟨"k2", entryD2, 10⟩]⟩
      ["d1", "d2"] "k1" "k3" 1 entryD1 entryD3 "d1" ⟨"k1", entryD1, 10⟩
      [⟨"k2", entryD2, 10⟩]).1 (by decide) rfl (by decide),
   (c3_eviction_cleanup_amended ⟨2, 10, [⟨"k1", entryD1, 10⟩, ⟨"k2", entryD2, 10⟩]⟩
      ["d1", "d2"] "k1" "k3" 1 entryD1 entryD3 "d1" ⟨"k1", entryD1, 10⟩
      [⟨"k2", entryD2, 10⟩]).2.1 rfl (by decide) (by decide) rfl rfl (by decide),
   (c3_eviction_cleanup_amended ⟨2, 10, [⟨"k1", entryD1, 10⟩]⟩
      ["d1"] "k1" "k2" 1 entryD1 entryD2 "d1" ⟨"k1", entryD1, 10⟩ []).2.2 (by decide)⟩

end Maps4fs
